import Mathlib

/-!
Verification of the Resumify asynchronous resume-processing backend.

This file gives a shallow embedding, in Lean 4, of the Python functions of
the repository that the specification's claims talk about:

* backend/src/matches_handler/text_extraction_errors.py (error classifier)
* backend/src/shared/reliability_utils.py (circuit breaker)
* backend/src/shared/error_handler.py (retry executor)
* backend/src/matches_handler/app.py (match scoring and generation)
* backend/src/nlp_handler/app.py (structuring stage: pattern extraction
  and the overall score)
* backend/src/upload_handler/app.py + backend/src/textract_result_handler/app.py
  (pipeline status transitions and analysis-record creation)

Python machine-level details are modelled as follows: numbers produced by
float/Decimal arithmetic are modelled as exact rationals; the code's
round(x, 2) is modelled as exact round-half-to-even at two decimals;
dictionaries read from DynamoDB are modelled as typed records with Option
fields for attributes that may be absent (a missing key and a falsy value
are both modelled as none where the code tests truthiness); uuid4 is
modelled as a fresh counter.  Each definition's doc comment names the
Python function it embeds.
-/

set_option allowUnsafeReducibility true in
attribute [semireducible] Rat.add Rat.sub Rat.mul Rat.div Rat.inv Rat.neg Rat.normalize Rat.blt

/-- Python's substring test: the list elements of pat appear contiguously
at the very front of s.  Used to build the model of Python's in operator. -/
def startsWithL : List Char → List Char → Bool
  | [], _ => true
  | _ :: _, [] => false
  | a :: as, b :: bs => a == b && startsWithL as bs

/-- Python's needle in haystack operator on strings, on the character
lists: true when needle occurs contiguously anywhere in hay. -/
def listSub (pat : List Char) : List Char → Bool
  | [] => pat.isEmpty
  | c :: rest => startsWithL pat (c :: rest) || listSub pat rest

/-- Model of Python's needle in hay for strings. -/
def pyIn (needle hay : String) : Bool :=
  listSub needle.toList hay.toList

/-- Model of Python's str.lower() (ASCII): lowercase every character. -/
def pyLower (s : String) : String :=
  String.mk (s.toList.map Char.toLower)

/-- Helper for pyTitle: the Bool says whether the previous character was
alphabetic. -/
def pyTitleGo : Bool → List Char → List Char
  | _, [] => []
  | prevAlpha, c :: rest =>
    (if c.isAlpha then (if prevAlpha then c.toLower else c.toUpper) else c) ::
      pyTitleGo c.isAlpha rest

/-- Model of Python's str.title(): the first cased character of each
alphabetic run is uppercased, the rest lowercased (ASCII). -/
def pyTitle (s : String) : String :=
  String.mk (pyTitleGo false s.toList)

/-- Characters Python's str.strip() removes (ASCII whitespace). -/
def isPyWs (c : Char) : Bool :=
  c == ' ' || c == '\t' || c == '\n' || c == '\x0d' || c == '\x0b' || c == '\x0c'

/-- Model of Python's str.strip(): drop ASCII whitespace from both ends. -/
def pyStrip (s : String) : String :=
  String.mk (((s.toList.dropWhile isPyWs).reverse.dropWhile isPyWs).reverse)

/-- Round-half-to-even to an integer, the rounding Python's round uses. -/
def roundHalfEven (q : ℚ) : ℤ :=
  let f := ⌊q⌋
  let r := q - f
  if r < 1/2 then f
  else if 1/2 < r then f + 1
  else if f % 2 = 0 then f else f + 1

/-- Model of Python's round(x, 2): round-half-to-even at two decimals. -/
def pyRound2 (q : ℚ) : ℚ :=
  (roundHalfEven (q * 100) : ℚ) / 100

/-!  Error classifier: matches_handler/text_extraction_errors.py  -/

/-- The TextExtractionErrorType enum of text_extraction_errors.py. -/
inductive TextExtractionErrorType where
  | TEXTRACT_JOB_FAILED
  | TEXTRACT_TIMEOUT
  | TEXTRACT_INVALID_JOB
  | TEXTRACT_SERVICE_ERROR
  | DOCUMENT_CORRUPTED
  | DOCUMENT_ENCRYPTED
  | DOCUMENT_TOO_LARGE
  | UNSUPPORTED_FORMAT
  | NETWORK_ERROR
  | PERMISSION_DENIED
  | PROCESSING_TIMEOUT
  | EMPTY_DOCUMENT
  | UNKNOWN_ERROR
deriving DecidableEq

open TextExtractionErrorType in
/-- TextExtractionErrorHandler.classify_error of text_extraction_errors.py:
keyword pattern matching over the lowercased message, in source order.
An empty message (Python: a falsy error_message) is UNKNOWN_ERROR. -/
def classify_error (error_message : String) : TextExtractionErrorType :=
  if error_message = "" then UNKNOWN_ERROR
  else
    let e := pyLower error_message
    if pyIn "textract" e then
      if pyIn "invalid" e || pyIn "expired" e then TEXTRACT_INVALID_JOB
      else if pyIn "timeout" e || pyIn "timed out" e then TEXTRACT_TIMEOUT
      else if pyIn "failed" e then TEXTRACT_JOB_FAILED
      else TEXTRACT_SERVICE_ERROR
    else if pyIn "corrupt" e || pyIn "damaged" e || pyIn "invalid format" e then
      DOCUMENT_CORRUPTED
    else if pyIn "password" e || pyIn "encrypted" e || pyIn "protected" e then
      DOCUMENT_ENCRYPTED
    else if pyIn "too large" e || pyIn "size limit" e || pyIn "file size" e then
      DOCUMENT_TOO_LARGE
    else if pyIn "unsupported" e || pyIn "format not supported" e then
      UNSUPPORTED_FORMAT
    else if pyIn "empty" e || pyIn "no text" e then
      EMPTY_DOCUMENT
    else if pyIn "network" e || pyIn "connection" e || pyIn "timeout" e then
      if pyIn "timeout" e then PROCESSING_TIMEOUT else NETWORK_ERROR
    else if pyIn "permission" e || pyIn "access denied" e || pyIn "forbidden" e then
      PERMISSION_DENIED
    else UNKNOWN_ERROR


/-!  Circuit breaker: shared/reliability_utils.py  -/

/-- The CircuitState enum of reliability_utils.py. -/
inductive CircuitState where
  | CLOSED
  | OPEN
  | HALF_OPEN
deriving DecidableEq

/-- CircuitBreakerConfig of reliability_utils.py.  Durations and times are
modelled as exact rationals (Python uses time.time() floats). -/
structure CircuitBreakerConfig where
  failure_threshold : ℕ := 5
  recovery_timeout : ℚ := 60
  success_threshold : ℕ := 3
  timeout_seconds : ℚ := 30
deriving DecidableEq

/-- CircuitBreakerState of reliability_utils.py (the lock is a concurrency
artifact: the locked sections run atomically, so the state machine below is
the sequential semantics of the guarded code). -/
structure CBState where
  state : CircuitState := .CLOSED
  failure_count : ℕ := 0
  success_count : ℕ := 0
  last_failure_time : ℚ := 0
  last_success_time : ℚ := 0
deriving DecidableEq

/-- CircuitBreaker._record_success: update last_success_time; in HALF_OPEN
count successes and close once success_threshold is reached (resetting the
failure count); in CLOSED reset the failure count. -/
def CBState.record_success (cfg : CircuitBreakerConfig) (t : ℚ) (s : CBState) :
    CBState :=
  let s := { s with last_success_time := t }
  match s.state with
  | .HALF_OPEN =>
    let sc := s.success_count + 1
    if cfg.success_threshold ≤ sc then
      { s with state := .CLOSED, success_count := sc, failure_count := 0 }
    else { s with success_count := sc }
  | .CLOSED => { s with failure_count := 0 }
  | .OPEN => s

/-- CircuitBreaker._record_failure: update last_failure_time, increment the
failure count; open the breaker from CLOSED once failure_count reaches
failure_threshold, and reopen immediately from HALF_OPEN. -/
def CBState.record_failure (cfg : CircuitBreakerConfig) (t : ℚ) (s : CBState) :
    CBState :=
  let s := { s with last_failure_time := t, failure_count := s.failure_count + 1 }
  if s.state = .CLOSED ∧ cfg.failure_threshold ≤ s.failure_count then
    { s with state := .OPEN }
  else if s.state = .HALF_OPEN then
    { s with state := .OPEN }
  else s

/-- The first locked block of CircuitBreaker.call: transition OPEN to
HALF_OPEN (resetting success_count) when strictly more than
recovery_timeout has elapsed since the last failure. -/
def CBState.check_open_transition (cfg : CircuitBreakerConfig) (t : ℚ)
    (s : CBState) : CBState :=
  if s.state = .OPEN ∧ cfg.recovery_timeout < t - s.last_failure_time then
    { s with state := .HALF_OPEN, success_count := 0 }
  else s

/-- Outcome of one CircuitBreaker.call: the wrapped function's value, its
exception propagated, or the CircuitBreakerOpenError fast-fail. -/
inductive CBCallResult where
  | ok
  | fnError
  | circuitOpenError
deriving DecidableEq

/-- CircuitBreaker.call: check/transition the state; if (still) OPEN raise
CircuitBreakerOpenError without invoking the function; otherwise invoke it
(fnSucceeds tells whether it succeeds) and record the outcome.  Returns
(result, new breaker state, whether the wrapped function was invoked). -/
def CBState.call (cfg : CircuitBreakerConfig) (t : ℚ) (s : CBState)
    (fnSucceeds : Bool) : CBCallResult × CBState × Bool :=
  let s1 := s.check_open_transition cfg t
  if s1.state = .OPEN then (.circuitOpenError, s1, false)
  else if fnSucceeds then (.ok, s1.record_success cfg t, true)
  else (.fnError, s1.record_failure cfg t, true)


/-!  Retry executor: shared/error_handler.py with_retry  -/

/-- Python exception values relevant to with_retry.  The default
retryable_exceptions tuple is (RetryableError, ClientError, BotoCoreError);
apiServiceUnavailable models the APIError(status_code=503) raised after
retries are exhausted, wrapping the last failure. -/
inductive PyExc where
  | retryableErr (msg : String)
  | clientErr (msg : String)
  | botoCoreErr (msg : String)
  | timeoutErr (msg : String)
  | apiServiceUnavailable (wrapped : PyExc)
  | otherErr (msg : String)
deriving DecidableEq

deriving instance DecidableEq for Except

/-- Membership in with_retry's default retryable_exceptions tuple
(RetryableError, ClientError, BotoCoreError). -/
def PyExc.isRetryableExc : PyExc → Bool
  | .retryableErr _ => true
  | .clientErr _ => true
  | .botoCoreErr _ => true
  | _ => false

/-- Python isinstance(e, RetryableError). -/
def PyExc.isRetryableErrorInstance : PyExc → Bool
  | .retryableErr _ => true
  | _ => false

/-- Recognises the service-unavailable terminal error (APIError with
HTTP-equivalent status 503). -/
def PyExc.isServiceUnavailable : PyExc → Bool
  | .apiServiceUnavailable _ => true
  | _ => false

/-- The code after with_retry's loop: a RetryableError is wrapped into an
APIError with status 503; any other last exception is re-raised as is. -/
def terminalExc (last : PyExc) : PyExc :=
  if last.isRetryableErrorInstance then .apiServiceUnavailable last else last

/-- The attempt loop of with_retry.  fn i is the outcome of the function's
(i+1)-th invocation; elapsed i is time.time() - start_time observed before
attempt i (backoff sleeps are real time, irrelevant to the result); k is
the number of attempts still allowed including the current one, so the top
level passes k = max_retries + 1.  Returns the final outcome (Except.error
models a raised exception) together with the number of invocations of fn.
The k = 0 arm is unreachable from the top level (the Python for loop would
not run and would then raise None). -/
def withRetryGo (timeoutSeconds : Option ℚ) (elapsed : ℕ → ℚ)
    (fn : ℕ → Except PyExc α) : ℕ → ℕ → Except PyExc α × ℕ
  | attempt, 0 => (.error (.otherErr "no attempts"), attempt)
  | attempt, k + 1 =>
    let timedOut :=
      match timeoutSeconds with
      | some ts => decide (ts ≠ 0) && decide (ts < elapsed attempt)
      | none => false
    if timedOut then (.error (.timeoutErr "retry timeout"), attempt)
    else
      match fn attempt with
      | .ok v => (.ok v, attempt + 1)
      | .error e =>
        if e.isRetryableExc then
          if k = 0 then (.error (terminalExc e), attempt + 1)
          else withRetryGo timeoutSeconds elapsed fn (attempt + 1) k
        else (.error e, attempt + 1)

/-- with_retry of shared/error_handler.py (the decorator's wrapper applied
to one call), with max_retries attempts beyond the first.  Python's falsy
test on timeout_seconds means both None and 0 disable the timeout check. -/
def with_retry (max_retries : ℕ) (timeoutSeconds : Option ℚ) (elapsed : ℕ → ℚ)
    (fn : ℕ → Except PyExc α) : Except PyExc α × ℕ :=
  withRetryGo timeoutSeconds elapsed fn 0 (max_retries + 1)


/-!  Match scoring: matches_handler/app.py  -/

/-- A row of the jobs table as read by matches_handler/app.py
(jobs_table.get_item / scan).  The status field exists in the data model
(active/closed) but is never read by the matcher. -/
structure MJob where
  jobId : String
  skills : List String := []
  requirements : List String := []
  status : String := "active"
deriving DecidableEq

/-- The nlpResults sub-dictionary of an analyses-table row.  none models
both a missing key and a falsy (empty) value, matching the code's
truthiness test. -/
structure NlpResults where
  skills : List String := []
  overallScore : Option ℚ := none
deriving DecidableEq

/-- A row of the analyses table as read by matches_handler/app.py. -/
structure MAnalysis where
  candidateId : String
  nlpResults : Option NlpResults := none
  skills : List String := []
  extractedText : Option String := none
  overallScore : Option ℚ := none
deriving DecidableEq

/-- The DynamoDB tables calculate_match_score reads: the analyses table
(queried through the candidateId index) and the jobs table. -/
structure MatchDb where
  analyses : List MAnalysis := []
  jobs : List MJob := []

/-- The skill keyword list of extract_skills_from_text in
matches_handler/app.py (kubernetes appears twice in the source). -/
def matchSkillKeywords : List String :=
  ["python", "java", "javascript", "react", "node.js", "aws", "azure", "docker",
   "kubernetes", "terraform", "git", "linux", "sql", "mongodb", "postgresql",
   "html", "css", "vue.js", "angular", "spring", "django", "flask", "express",
   "typescript", "php", "ruby", "go", "c++", "c#", "swift", "kotlin", "android",
   "ios", "machine learning", "ai", "tensorflow", "pytorch", "pandas", "numpy",
   "scikit-learn", "jenkins", "ci/cd", "devops", "agile", "scrum", "kubernetes",
   "ansible", "chef", "puppet", "elasticsearch", "redis", "kafka"]

/-- Helper for dedupFirst: skip elements already seen. -/
def dedupFirstGo (seen : List String) : List String → List String
  | [] => []
  | x :: xs =>
    if x ∈ seen then dedupFirstGo seen xs
    else x :: dedupFirstGo (x :: seen) xs

/-- Order-preserving duplicate removal keeping first occurrences; models
Python's list(set(xs)) whose element order is unspecified (no caller of
these functions depends on the order). -/
def dedupFirst (l : List String) : List String := dedupFirstGo [] l

/-- extract_skills_from_text of matches_handler/app.py: keep the keywords
occurring in the lowercased text, title-cased, deduplicated. -/
def extract_skills_from_text (text : String) : List String :=
  dedupFirst ((matchSkillKeywords.filter (fun sk => pyIn sk (pyLower text))).map pyTitle)

/-- The candidate-skill retrieval of calculate_match_score: skills from
nlpResults when present and truthy, else the record's own skills field,
and, if still empty, skills extracted from extractedText when that
attribute is present. -/
def candidateSkillsOf (a : MAnalysis) : List String :=
  let s0 := match a.nlpResults with
    | some nr => nr.skills
    | none => a.skills
  if s0.isEmpty then
    match a.extractedText with
    | some t => extract_skills_from_text t
    | none => []
  else s0

/-- The experience-score retrieval of calculate_match_score: the stored
overall score, from nlpResults when present and truthy, else from the
record itself, defaulting to 50. -/
def experienceScoreOf (a : MAnalysis) : ℚ :=
  match a.nlpResults with
  | some nr => nr.overallScore.getD 50
  | none => a.overallScore.getD 50

/-- calculate_match_score of matches_handler/app.py.  Returns 0 when the
candidate has no analysis record or the job does not exist (and, in the
source, on any exception: the whole body is wrapped in try/except
returning 0; in this typed model no other exception can arise). -/
def calculate_match_score (db : MatchDb) (candidate_id job_id : String) : ℚ :=
  match (db.analyses.filter (fun a => a.candidateId = candidate_id)).head? with
  | none => 0
  | some analysis =>
    let candidate_skills := candidateSkillsOf analysis
    match db.jobs.find? (fun j => j.jobId = job_id) with
    | none => 0
    | some job =>
      let job_skills := job.skills
      let total_skills := job_skills.length
      let skill_matches := (job_skills.filter (fun skill =>
        candidate_skills.any (fun cs =>
          pyIn (pyLower cs) (pyLower skill) || pyIn (pyLower skill) (pyLower cs)))).length
      let skill_score : ℚ :=
        if 0 < total_skills then (skill_matches : ℚ) / (total_skills : ℚ) * 100 else 0
      let experience_score := experienceScoreOf analysis
      pyRound2 (skill_score * (6/10) + experience_score * (4/10))

/-- A row of the matches list built by generate_matches_for_candidate
(createdAt timestamps are not modelled). -/
structure MatchRow where
  candidateId : String
  jobId : String
  matchScore : ℚ
deriving DecidableEq

/-- The sort key of generate_matches_for_candidate: list.sort with
key=matchScore and reverse=True places a before b when b's score is at
most a's. -/
def scoreDescB (a b : MatchRow) : Bool := decide (b.matchScore ≤ a.matchScore)

/-- The list of candidate/job matches with positive score, in jobs-table
enumeration order: the loop body of generate_matches_for_candidate. -/
def positiveMatches (db : MatchDb) (candidate_id : String) : List MatchRow :=
  db.jobs.filterMap (fun job =>
    let ms := calculate_match_score db candidate_id job.jobId
    if 0 < ms then some { candidateId := candidate_id, jobId := job.jobId, matchScore := ms }
    else none)

/-- generate_matches_for_candidate of matches_handler/app.py: score every
job in the jobs table, keep scores > 0, and sort by score, highest first
(Python's list.sort is stable; with reverse=True equal keys keep their
original order, which mergeSort with this comparison reproduces). -/
def generate_matches_for_candidate (db : MatchDb) (candidate_id : String) :
    List MatchRow :=
  (positiveMatches db candidate_id).mergeSort scoreDescB


/-!
Regular expressions: a small backtracking engine faithful to the subset of
Python's re module used by nlp_handler/app.py.  All the re calls there pass
re.IGNORECASE, so literal characters are matched case-insensitively.
Candidate matches are enumerated in Python's backtracking preference order
(earlier alternative first, greedy quantifier longest-first, lazy
quantifier shortest-first), so the head of the candidate list is exactly
the match Python's engine returns.  The starred subexpressions appearing
in the embedded patterns contain no capture groups and always consume at
least one character, matching the engine's repetition rule below.
-/

/-- Regular expression syntax: empty, single-character class, sequencing,
alternation (left preferred), greedy star, lazy star and a capture group. -/
inductive RE where
  | eps
  | cls (p : Char → Bool)
  | seq (a b : RE)
  | alt (a b : RE)
  | star (a : RE)
  | starL (a : RE)
  | grp (a : RE)

/-- Number of constructors of a pattern, used only to size the fuel. -/
def sizeRE : RE → ℕ
  | .eps => 1
  | .cls _ => 1
  | .seq a b => 1 + sizeRE a + sizeRE b
  | .alt a b => 1 + sizeRE a + sizeRE b
  | .star a => 1 + sizeRE a
  | .starL a => 1 + sizeRE a
  | .grp a => 1 + sizeRE a

/-- All ways r can match a front segment of s, in Python's backtracking
preference order.  Each candidate is the remaining input paired with the
list of group captures, in group-number order.  The fuel argument bounds
the recursion depth and is decremented on every call (structural
recursion, so the kernel can evaluate the function); a star iteration
always consumes at least one character, so a call tree is never deeper
than the fuel reMatchHere supplies. -/
def REmatchF : ℕ → RE → List Char → List (List Char × List (List Char))
  | 0, _, _ => []
  | _ + 1, .eps, s => [(s, [])]
  | _ + 1, .cls _, [] => []
  | _ + 1, .cls p, c :: rest => if p c then [(rest, [])] else []
  | fuel + 1, .seq a b, s =>
    (REmatchF fuel a s).flatMap (fun pr =>
      (REmatchF fuel b pr.1).map (fun qr => (qr.1, pr.2 ++ qr.2)))
  | fuel + 1, .alt a b, s => REmatchF fuel a s ++ REmatchF fuel b s
  | fuel + 1, .star a, s =>
    ((REmatchF fuel a s).flatMap (fun pr =>
      if pr.1.length < s.length then
        (REmatchF fuel (.star a) pr.1).map (fun qr => (qr.1, pr.2 ++ qr.2))
      else [])) ++ [(s, [])]
  | fuel + 1, .starL a, s =>
    (s, []) :: (REmatchF fuel a s).flatMap (fun pr =>
      if pr.1.length < s.length then
        (REmatchF fuel (.starL a) pr.1).map (fun qr => (qr.1, pr.2 ++ qr.2))
      else [])
  | fuel + 1, .grp a, s =>
    (REmatchF fuel a s).map (fun pr =>
      (pr.1, s.take (s.length - pr.1.length) :: pr.2))

/-- The candidates for a match of r starting exactly at the front of s:
the fuel (sizeRE r + 1) * (length of s + 2) exceeds any possible
backtracking depth for the embedded patterns, whose starred bodies all
consume at least one character per iteration. -/
def reMatchHere (r : RE) (s : List Char) : List (List Char × List (List Char)) :=
  REmatchF ((sizeRE r + 1) * (s.length + 2)) r s

/-- Python re.search: try each start position from the left; at the first
position where a match exists return the matched text and the captures. -/
def reSearchAux (r : RE) : List Char → Option (List Char × List (List Char))
  | [] =>
    match (reMatchHere r []).head? with
    | some (_, g) => some ([], g)
    | none => none
  | c :: t =>
    match (reMatchHere r (c :: t)).head? with
    | some (rest, g) => some ((c :: t).take ((c :: t).length - rest.length), g)
    | none => reSearchAux r t

/-- re.search(...).group(1) as used by extract_education: the capture of
the first group of the leftmost match, if any. -/
def reSearchGroup1 (r : RE) (s : String) : Option String :=
  (reSearchAux r s.toList).map (fun pr => String.mk (pr.2.headD []))

/-- Python re.findall scanning: non-overlapping matches from the left; an
empty match advances the scan position by one character. -/
def reFindAllAux (r : RE) : ℕ → List Char → List (List Char × List (List Char))
  | 0, _ => []
  | fuel + 1, s =>
    match (reMatchHere r s).head? with
    | some (rest, g) =>
      let m := s.take (s.length - rest.length)
      if rest.length < s.length then (m, g) :: reFindAllAux r fuel rest
      else
        (m, g) :: (match s with | [] => [] | _ :: t => reFindAllAux r fuel t)
    | none => match s with | [] => [] | _ :: t => reFindAllAux r fuel t

/-- re.findall for a pattern with one capture group: the list of group-1
captures (every group in the embedded patterns participates whenever the
pattern matches). -/
def reFindAllGroup1 (r : RE) (s : String) : List String :=
  (reFindAllAux r (s.toList.length + 1) s.toList).map (fun pr => String.mk (pr.2.headD []))

/-- re.findall for a pattern without groups: the list of whole matches. -/
def reFindAllWhole (r : RE) (s : String) : List String :=
  (reFindAllAux r (s.toList.length + 1) s.toList).map (fun pr => String.mk pr.1)

/-- A literal pattern character under re.IGNORECASE: c is stored lowercase
and compared against the lowercased input character. -/
def rchar (c : Char) : RE := .cls (fun d => d.toLower == c)

/-- Sequencing of a pattern list. -/
def rcat (rs : List RE) : RE := rs.foldr .seq .eps

/-- Alternation of a pattern list, first alternative preferred. -/
def ralts : List RE → RE
  | [] => .eps
  | [r] => r
  | r :: rs => .alt r (ralts rs)

/-- A case-insensitive literal string pattern. -/
def istr (s : String) : RE := rcat (s.toList.map (fun c => rchar c.toLower))

/-- Pattern r? (greedy). -/
def ropt (r : RE) : RE := .alt r .eps

/-- Pattern r+ (greedy). -/
def rplus (r : RE) : RE := .seq r (.star r)

/-- Pattern r exactly n times. -/
def rrep (r : RE) (n : ℕ) : RE := rcat (List.replicate n r)

/-- Python's character class \d. -/
def reD : RE := .cls Char.isDigit

/-- Python's character class \s (ASCII). -/
def reWs : RE := .cls isPyWs

/-- Python's . metacharacter (anything but a newline; DOTALL unused). -/
def reDot : RE := .cls (fun c => c != '\n')

/-- The character class [A-Za-z\s]. -/
def reAlphaWs : RE := .cls (fun c => c.isAlpha || isPyWs c)

/-!  Structuring stage: nlp_handler/app.py pattern-matching path  -/

/-- experience_patterns[0] of extract_experience:
(\d+)\+?\s*years?\s*(?:of\s*)?(?:experience|expertise) -/
def expPattern1 : RE :=
  rcat [.grp (rplus reD), ropt (rchar '+'), .star reWs, istr "year", ropt (rchar 's'),
    .star reWs, ropt (rcat [istr "of", .star reWs]),
    .alt (istr "experience") (istr "expertise")]

/-- experience_patterns[1]: (?:experience|expertise)[:\s]*(\d+)\+?\s*years? -/
def expPattern2 : RE :=
  rcat [.alt (istr "experience") (istr "expertise"),
    .star (.cls (fun c => c == ':' || isPyWs c)),
    .grp (rplus reD), ropt (rchar '+'), .star reWs, istr "year", ropt (rchar 's')]

/-- experience_patterns[2]:
(\d+)\+?\s*years?\s*in\s*(?:the\s*)?(?:field|industry|profession) -/
def expPattern3 : RE :=
  rcat [.grp (rplus reD), ropt (rchar '+'), .star reWs, istr "year", ropt (rchar 's'),
    .star reWs, istr "in", .star reWs, ropt (rcat [istr "the", .star reWs]),
    ralts [istr "field", istr "industry", istr "profession"]]

/-- experience_patterns[3]: (\d+)\+?\s*years?\s*(?:of\s*)?(?:experience|expertise|in) -/
def expPattern4 : RE :=
  rcat [.grp (rplus reD), ropt (rchar '+'), .star reWs, istr "year", ropt (rchar 's'),
    .star reWs, ropt (rcat [istr "of", .star reWs]),
    ralts [istr "experience", istr "expertise", istr "in"]]

/-- experience_patterns[4]: (?:over|with)\s*(\d+)\+?\s*years? -/
def expPattern5 : RE :=
  rcat [.alt (istr "over") (istr "with"), .star reWs,
    .grp (rplus reD), ropt (rchar '+'), .star reWs, istr "year", ropt (rchar 's')]

/-- degree_patterns[0] of extract_education. -/
def degreePattern1 : RE :=
  rcat [.grp (ralts [istr "bachelor", istr "master", istr "phd", istr "doctorate",
      istr "associate", istr "diploma", istr "certificate"]),
    .star reWs, ropt (rcat [istr "of", .star reWs]),
    ropt (ralts [istr "science", istr "arts", istr "engineering", istr "business",
      istr "computer science", istr "information technology", istr "data science",
      istr "software engineering"])]

/-- degree_patterns[1]: (B\.?S\.?|M\.?S\.?|B\.?A\.?|M\.?A\.?|Ph\.?D\.?|MBA|M\.?B\.?A\.?) -/
def degreePattern2 : RE :=
  .grp (ralts [
    rcat [rchar 'b', ropt (rchar '.'), rchar 's', ropt (rchar '.')],
    rcat [rchar 'm', ropt (rchar '.'), rchar 's', ropt (rchar '.')],
    rcat [rchar 'b', ropt (rchar '.'), rchar 'a', ropt (rchar '.')],
    rcat [rchar 'm', ropt (rchar '.'), rchar 'a', ropt (rchar '.')],
    rcat [rchar 'p', rchar 'h', ropt (rchar '.'), rchar 'd', ropt (rchar '.')],
    istr "mba",
    rcat [rchar 'm', ropt (rchar '.'), rchar 'b', ropt (rchar '.'), rchar 'a',
      ropt (rchar '.')]])

/-- university_patterns[0]: (?:University|College|Institute|School)\s+of\s+([A-Za-z\s]+) -/
def univPattern1 : RE :=
  rcat [ralts [istr "university", istr "college", istr "institute", istr "school"],
    rplus reWs, istr "of", rplus reWs, .grp (rplus reAlphaWs)]

/-- university_patterns[1]: ([A-Za-z\s]+)\s+(?:University|College|Institute) -/
def univPattern2 : RE :=
  rcat [.grp (rplus reAlphaWs), rplus reWs,
    ralts [istr "university", istr "college", istr "institute"]]

/-- year_pattern of extract_education: (?:graduated|completed|finished).*?(\d{4}) -/
def gradYearPattern : RE :=
  rcat [ralts [istr "graduated", istr "completed", istr "finished"],
    .starL reDot, .grp (rrep reD 4)]

/-- job_title_patterns[0] of extract_job_titles. -/
def jobPattern1 : RE :=
  rcat [ropt (ralts [istr "senior", istr "junior", istr "lead", istr "principal",
      istr "staff"]),
    .star reWs, ropt (rcat [istr "software", rplus reWs]),
    ralts [istr "engineer", istr "developer", istr "programmer", istr "architect",
      istr "manager", istr "director", istr "analyst", istr "consultant",
      istr "specialist"]]

/-- job_title_patterns[1]:
(?:Full\s+Stack|Front\s+End|Back\s+End|DevOps|Data|Machine\s+Learning|AI)\s+(?:Engineer|Developer|Specialist) -/
def jobPattern2 : RE :=
  rcat [ralts [rcat [istr "full", rplus reWs, istr "stack"],
      rcat [istr "front", rplus reWs, istr "end"],
      rcat [istr "back", rplus reWs, istr "end"],
      istr "devops", istr "data",
      rcat [istr "machine", rplus reWs, istr "learning"], istr "ai"],
    rplus reWs, ralts [istr "engineer", istr "developer", istr "specialist"]]

/-- job_title_patterns[2]: (?:Product|Project|Technical|Engineering)\s+(?:Manager|Lead|Director) -/
def jobPattern3 : RE :=
  rcat [ralts [istr "product", istr "project", istr "technical", istr "engineering"],
    rplus reWs, ralts [istr "manager", istr "lead", istr "director"]]

/-- extract_job_titles of nlp_handler/app.py: findall each pattern over the
text, strip each match, deduplicate (Python: list(set(...)), whose order is
unspecified; first-occurrence order is used here) and keep at most 10. -/
def extract_job_titles (text : String) : List String :=
  (dedupFirst (([jobPattern1, jobPattern2, jobPattern3].flatMap
    (fun p => reFindAllWhole p text)).map pyStrip)).take 10

/-- The experience dictionary built by extract_experience (the free-text
summary field is assembled only for display and is not modelled). -/
structure Experience where
  totalYears : ℚ := 0
  currentRole : String := ""
  previousRoles : List String := []
deriving DecidableEq

/-- Numeric value of a digit string (Python float(m) on a \d+ capture). -/
def natOfDigits (cs : List Char) : ℕ :=
  cs.foldl (fun n c => n * 10 + (c.toNat - 48)) 0

/-- extract_experience of nlp_handler/app.py: collect the year counts
captured by the five experience patterns, take the maximum; the current
role is the first extracted job title and the previous roles the next
four.  (extract_organizations is also called there, but its result is
never used.) -/
def extract_experience (text : String) : Experience :=
  let years_found : List ℚ :=
    ([expPattern1, expPattern2, expPattern3, expPattern4, expPattern5].flatMap
      (fun p => reFindAllGroup1 p text)).map (fun ds => (natOfDigits ds.toList : ℚ))
  let totalYears : ℚ := match years_found.max? with
    | some m => m
    | none => 0
  let job_titles := extract_job_titles text
  { totalYears := totalYears,
    currentRole := job_titles.headD "",
    previousRoles := (job_titles.drop 1).take 4 }

/-- The education dictionary built by extract_education. -/
structure Education where
  degree : String := "Unknown"
  university : String := "Unknown"
  graduationYear : ℚ := 0
deriving DecidableEq

/-- extract_education of nlp_handler/app.py: first matching degree pattern
(group 1), first matching university pattern (group 1, stripped), and the
graduation year, with Unknown/0 defaults. -/
def extract_education (text : String) : Education :=
  let degree := match reSearchGroup1 degreePattern1 text with
    | some d => d
    | none =>
      match reSearchGroup1 degreePattern2 text with
      | some d => d
      | none => "Unknown"
  let university := match reSearchGroup1 univPattern1 text with
    | some u => pyStrip u
    | none =>
      match reSearchGroup1 univPattern2 text with
      | some u => pyStrip u
      | none => "Unknown"
  let gradYear : ℚ := match reSearchGroup1 gradYearPattern text with
    | some y => (natOfDigits y.toList : ℚ)
    | none => 0
  { degree := degree, university := university, graduationYear := gradYear }

/-- The skill vocabulary of extract_skills in nlp_handler/app.py
(technical_skills followed by soft_skills, in source order). -/
def nlpSkillVocab : List String :=
  ["Python", "JavaScript", "Java", "C++", "C#", "Go", "Rust", "Swift", "Kotlin",
   "React", "Angular", "Vue", "Node.js", "Express", "Django", "Flask", "Spring",
   "HTML", "CSS", "Bootstrap", "jQuery", "TypeScript", "PHP", "Ruby", "Laravel",
   "SQL", "MySQL", "PostgreSQL", "MongoDB", "Redis", "DynamoDB", "Oracle",
   "AWS", "Azure", "GCP", "Docker", "Kubernetes", "Jenkins", "Git", "GitHub",
   "Linux", "Windows", "MacOS", "Unix", "Bash", "PowerShell",
   "Machine Learning", "AI", "TensorFlow", "PyTorch", "Pandas", "NumPy",
   "Data Science", "Analytics", "Big Data", "Hadoop", "Spark", "Kafka",
   "Leadership", "Team Management", "Communication", "Problem Solving",
   "Project Management", "Agile", "Scrum", "Collaboration", "Mentoring",
   "Time Management", "Critical Thinking", "Adaptability", "Creativity",
   "Negotiation", "Presentation", "Writing", "Public Speaking"]

/-- extract_skills of nlp_handler/app.py: vocabulary entries whose
lowercase form occurs in the lowercased text, at most 20. -/
def extract_skills (text : String) : List String :=
  (nlpSkillVocab.filter (fun sk => pyIn (pyLower sk) (pyLower text))).take 20

/-- calculate_overall_score of nlp_handler/app.py: 2 points per skill
capped at 40, tiered experience points (5 or more years 30, 3 or more 20,
1 or more 10) guarded by totalYears > 0, 20 for a known degree else 10 for
a known university, 10 for a non-empty current role, all capped at 100. -/
def calculate_overall_score (skills : List String) (experience : Experience)
    (education : Education) : ℕ :=
  let skillPts := min (skills.length * 2) 40
  let expPts : ℕ :=
    if 0 < experience.totalYears then
      if 5 ≤ experience.totalYears then 30
      else if 3 ≤ experience.totalYears then 20
      else if 1 ≤ experience.totalYears then 10
      else 0
    else 0
  let eduPts : ℕ :=
    if education.degree ≠ "Unknown" then 20
    else if education.university ≠ "Unknown" then 10
    else 0
  let rolePts : ℕ := if experience.currentRole ≠ "" then 10 else 0
  min (skillPts + expPts + eduPts + rolePts) 100

/-- The positive word list of calculate_sentiment. -/
def positiveWords : List String :=
  ["excellent", "outstanding", "achieved", "successful", "innovative",
   "creative", "passionate", "dedicated"]

/-- The negative word list of calculate_sentiment. -/
def negativeWords : List String :=
  ["failed", "unsuccessful", "poor", "bad", "terrible", "awful"]

/-- calculate_sentiment of nlp_handler/app.py. -/
def calculate_sentiment (text : String) : String :=
  let tl := pyLower text
  let p := (positiveWords.filter (fun w => pyIn w tl)).length
  let n := (negativeWords.filter (fun w => pyIn w tl)).length
  if n < p then "POSITIVE" else if p < n then "NEGATIVE" else "NEUTRAL"

/-- The structured-profile fields produced by extract_from_text that any
claim mentions (organizations and keyPhrases are extracted in the source
but referenced by no claim and used by no embedded function; timestamps
are not modelled). -/
structure NlpExtract where
  skills : List String
  experience : Experience
  education : Education
  jobTitles : List String
  overallScore : ℕ
  sentiment : String
deriving DecidableEq

/-- extract_from_text of nlp_handler/app.py: the pattern-matching
structuring path (used for every file type other than the hardcoded pdf
and docx fixtures). -/
def extract_from_text (text : String) : NlpExtract :=
  let skills := extract_skills text
  let experience := extract_experience text
  let education := extract_education text
  { skills := skills,
    experience := experience,
    education := education,
    jobTitles := extract_job_titles text,
    overallScore := calculate_overall_score skills experience education,
    sentiment := calculate_sentiment text }

/-- The resume text of end-to-end scenario 1 of the specification. -/
def sampleResumeText : String :=
  "5 years experience as Senior Software Engineer at Acme Corp, Java, Python, AWS"


/-!
Pipeline orchestration: the candidate-status writes and analysis-record
creations of upload_handler/app.py, textract_result_handler/app.py and
nlp_handler/app.py, modelled for a single candidate's lifecycle (units of
work for different candidates share no state in these handlers beyond the
per-candidate rows modelled here).  Only the fields the claims mention are
tracked; status writes are logged in write order in statusHistory.
-/

/-- A row of the analyses table as written by create_analysis_record /
create_basic_analysis_record; uuid4 keys are modelled by a fresh counter. -/
structure PipeAnalysis where
  analysisId : ℕ
  candidateId : String
  extractedText : String
deriving DecidableEq

/-- The per-candidate pipeline state: the candidate row's status and
Textract job id, the analyses-table rows, and the ordered log of every
value written to the candidate's status attribute. -/
structure PipeState where
  candidateId : String
  fileType : String
  status : String
  textractJobId : Option String
  statusHistory : List String
  analyses : List PipeAnalysis
  nextAnalysisId : ℕ
deriving DecidableEq

/-- update_candidate_status (update_item SET status): one status write. -/
def PipeState.writeStatus (st : String) (s : PipeState) : PipeState :=
  { s with status := st, statusHistory := s.statusHistory ++ [st] }

/-- create_analysis_record / create_basic_analysis_record: unconditionally
put_item a new analyses row under a fresh uuid4 key. -/
def PipeState.putAnalysis (text : String) (s : PipeState) : PipeState :=
  { s with
    analyses := s.analyses ++ [⟨s.nextAnalysisId, s.candidateId, text⟩],
    nextAnalysisId := s.nextAnalysisId + 1 }

/-- The txt branch of upload_handler's lambda_handler: candidate row
created with status uploaded, an analysis record with the decoded text,
status set to analyzed, then NLP is triggered (a later nlpRun event). -/
def uploadTxt (cid text : String) : PipeState :=
  let s0 : PipeState :=
    { candidateId := cid, fileType := "txt", status := "uploaded",
      textractJobId := none, statusHistory := ["uploaded"], analyses := [],
      nextAnalysisId := 0 }
  (s0.putAnalysis text).writeStatus "analyzed"

/-- The pdf branch of upload_handler's lambda_handler: candidate row
created with status uploaded, a basic placeholder analysis record, then
start_textract_job either stores the job id and writes status processing,
or (on a Textract ClientError) writes status failed. -/
def uploadPdf (cid fileName : String) (textractStartOk : Bool) (jobId : String) :
    PipeState :=
  let s0 : PipeState :=
    { candidateId := cid, fileType := "pdf", status := "uploaded",
      textractJobId := none, statusHistory := ["uploaded"], analyses := [],
      nextAnalysisId := 0 }
  let s1 := s0.putAnalysis ("PDF file: " ++ fileName ++ "\n\nProcessing in progress...")
  if textractStartOk then
    { s1.writeStatus "processing" with textractJobId := some jobId }
  else s1.writeStatus "failed"

/-- One SNS completion notification processed by textract_result_handler's
lambda_handler: on SUCCEEDED, process_textract_results fetches the text
blocks (ocrText), finds the candidate by textractJobId (a table scan;
here: this candidate if the job id matches), creates a new analysis
record, and writes status analyzed; on any other job status the candidate
is marked failed.  NLP triggering is a separate nlpRun event. -/
def textractNotification (jobId status ocrText : String) (s : PipeState) :
    PipeState :=
  if status = "SUCCEEDED" then
    if s.textractJobId = some jobId then
      (s.putAnalysis ocrText).writeStatus "analyzed"
    else s
  else
    if s.textractJobId = some jobId then s.writeStatus "failed" else s

/-- One invocation of nlp_handler's process_candidate_text: without an
analysis record, or with empty extracted text, it returns with no status
write; otherwise it updates the analysis record and writes analyzed.  Any
exception in the body (ok = false) writes failed. -/
def nlpRun (ok : Bool) (s : PipeState) : PipeState :=
  if ok then
    match s.analyses.head? with
    | none => s
    | some a => if a.extractedText = "" then s else s.writeStatus "analyzed"
  else s.writeStatus "failed"

/-- The asynchronous events that can reach a candidate after upload. -/
inductive PipeEvent where
  | textractResult (jobId status ocrText : String)
  | nlp (ok : Bool)

/-- Dispatch one event to its handler. -/
def pipeStep (s : PipeState) (e : PipeEvent) : PipeState :=
  match e with
  | .textractResult j st txt => textractNotification j st txt s
  | .nlp ok => nlpRun ok s

/-- The two modelled upload kinds (doc/docx go to a worker whose candidate
status writes are also only analyzed or failed). -/
inductive UploadInput where
  | txt (cid text : String)
  | pdf (cid fileName : String) (ok : Bool) (jobId : String)

/-- The pipeline state right after the upload request is handled. -/
def uploadInit : UploadInput → PipeState
  | .txt cid text => uploadTxt cid text
  | .pdf cid fn ok j => uploadPdf cid fn ok j

/-- A candidate's modelled lifecycle: upload followed by any sequence of
completion notifications and NLP invocations. -/
def runPipe (u : UploadInput) (events : List PipeEvent) : PipeState :=
  events.foldl pipeStep (uploadInit u)


/-!  Specification-side definitions used to state the claims  -/

/-- Written from the claim C2 wording: iterate all ACTIVE job postings,
keep scores > 0, sort descending by score, ties in enumeration order.
Compared against generate_matches_for_candidate, which has no status
filter. -/
def specMatchAllJobsActive (db : MatchDb) (candidate_id : String) : List MatchRow :=
  (((db.jobs.filter (fun j => j.status = "active")).filterMap (fun job =>
    let ms := calculate_match_score db candidate_id job.jobId
    if 0 < ms then
      some { candidateId := candidate_id, jobId := job.jobId, matchScore := ms }
    else none)).mergeSort scoreDescB)

/-- Written from the claim C3 wording: skillScore = 100 * matchedSkillCount
/ len(job skills), a candidate skill matching a job skill when either
lowercased string contains the other; 0 when the job lists no skills. -/
def specSkillScore (candidateSkills jobSkills : List String) : ℚ :=
  if jobSkills = [] then 0
  else
    100 * ((jobSkills.filter (fun skill => candidateSkills.any (fun cs =>
      pyIn (pyLower cs) (pyLower skill) || pyIn (pyLower skill) (pyLower cs)))).length : ℚ)
      / (jobSkills.length : ℚ)

/-- Written from the claim C8 wording: S = min(2 * number of skills, 40). -/
def specSkillPoints (skills : List String) : ℕ := min (2 * skills.length) 40

/-- Written from the claim C8 wording: E = 30 for 5 or more years, 20 for
3 or more, 10 for 1 or more, else 0. -/
def specExperiencePoints (e : Experience) : ℕ :=
  if 5 ≤ e.totalYears then 30
  else if 3 ≤ e.totalYears then 20
  else if 1 ≤ e.totalYears then 10
  else 0

/-- Written from the claim C8 wording: D = 20 when a degree was found, 10
when only a university was found. -/
def specEducationPoints (ed : Education) : ℕ :=
  if ed.degree ≠ "Unknown" then 20
  else if ed.university ≠ "Unknown" then 10
  else 0

/-- Written from the claim C8 wording: R = 10 when a current role was
found. -/
def specRolePoints (e : Experience) : ℕ := if e.currentRole ≠ "" then 10 else 0

/-- The claim C9 status vocabulary {uploaded, extracting, extracted,
structuring, analyzed, failed}. -/
def specStatusValues : List String :=
  ["uploaded", "extracting", "extracted", "structuring", "analyzed", "failed"]

/-- The status values the embedded pipeline actually writes. -/
def pipeStatusValues : List String := ["uploaded", "processing", "analyzed", "failed"]

/-- Position of a status in the forward chain uploaded, processing,
analyzed; none for failed (and anything else). -/
def statusRank (s : String) : Option ℕ :=
  if s = "uploaded" then some 0
  else if s = "processing" then some 1
  else if s = "analyzed" then some 2
  else none

/-- Forward-only order on consecutive status writes: whenever both are
chain statuses, the rank must not decrease. -/
def rankLeB (a b : String) : Bool :=
  match statusRank a, statusRank b with
  | some ra, some rb => ra ≤ rb
  | _, _ => true

/-- A status-write log is good when every entry is one of the four values
the pipeline writes and consecutive chain entries never go backward. -/
def GoodHist (h : List String) : Prop :=
  (∀ x ∈ h, x ∈ pipeStatusValues) ∧ List.Chain' (fun a b => rankLeB a b = true) h

/-!  Concrete inputs for witnesses and counterexamples  -/

/-- Two-job database for the C2 witness: both jobs score 80 for c1. -/
def c2WitnessDb : MatchDb :=
  { analyses := [{ candidateId := "c1", skills := ["Python"] }],
    jobs := [{ jobId := "j1", skills := ["python"] },
             { jobId := "j2", skills := ["python"] }] }

/-- Database for the C2 counterexample: the only job is closed, yet it
scores 80 for c1 and is returned by generate_matches_for_candidate. -/
def c2ClosedDb : MatchDb :=
  { analyses := [{ candidateId := "c1", skills := ["Python"] }],
    jobs := [{ jobId := "j1", skills := ["python"], status := "closed" }] }

/-- Analysis row for the C3 witness (scenario 4 of the specification). -/
def c3WitnessAnalysis : MAnalysis := { candidateId := "c1", skills := ["python", "react"] }

/-- Job row for the C3 witness (scenario 4 of the specification). -/
def c3WitnessJob : MJob := { jobId := "j1", skills := ["Python", "Docker"] }

/-- Database for the C3 witness. -/
def c3WitnessDb : MatchDb :=
  { analyses := [c3WitnessAnalysis], jobs := [c3WitnessJob] }

/-- Database for the C10 counterexample: a stored (out-of-range) negative
overall score makes calculate_match_score return a negative score. -/
def c10NegDb : MatchDb :=
  { analyses := [{ candidateId := "c1", overallScore := some (-100) }],
    jobs := [{ jobId := "j1" }] }

/-- Database for the C10 witness: one analysis, one job, no matching
skills, stored overall score 70. -/
def c10WitnessDb : MatchDb :=
  { analyses := [{ candidateId := "c1", overallScore := some 70 }],
    jobs := [{ jobId := "j1", skills := ["haskell"] }] }

/-- An always-failing function raising ClientError, which is in the
default retryable_exceptions tuple but is not a RetryableError. -/
def alwaysClientErr : ℕ → Except PyExc Unit := fun _ => .error (.clientErr "boom")

/-- An always-failing function raising RetryableError. -/
def alwaysRetryableErr : ℕ → Except PyExc Unit := fun _ => .error (.retryableErr "svc down")

/-- Breaker configuration for the C6 witness. -/
def c6WitnessCfg : CircuitBreakerConfig := { failure_threshold := 2 }

/-- Fresh CLOSED breaker state for the C6 witness. -/
def c6WitnessState : CBState := {}

/-- An OPEN breaker state whose last failure was at time 0. -/
def openBreakerState : CBState := { state := .OPEN, failure_count := 5 }

/-- Breaker configuration with the default 60 second recovery timeout. -/
def c7Cfg : CircuitBreakerConfig := {}

/-!  Helper lemmas  -/

/-- record_failure leaves an OPEN breaker OPEN. -/
theorem record_failure_open_state (cfg : CircuitBreakerConfig) (t : ℚ) (s : CBState)
    (h : s.state = .OPEN) : (s.record_failure cfg t).state = .OPEN := by
  simp [CBState.record_failure, h]

/-- record_failure opens a CLOSED breaker once the incremented count
reaches the threshold. -/
theorem record_failure_closed_opens (cfg : CircuitBreakerConfig) (t : ℚ) (s : CBState)
    (hcl : s.state = .CLOSED) (hth : cfg.failure_threshold ≤ s.failure_count + 1) :
    (s.record_failure cfg t).state = .OPEN := by
  simp [CBState.record_failure, hcl, hth]

/-- Below the threshold, record_failure keeps a CLOSED breaker CLOSED and
increments the failure count. -/
theorem record_failure_closed_stays (cfg : CircuitBreakerConfig) (t : ℚ) (s : CBState)
    (hcl : s.state = .CLOSED) (hth : ¬ cfg.failure_threshold ≤ s.failure_count + 1) :
    (s.record_failure cfg t).state = .CLOSED ∧
    (s.record_failure cfg t).failure_count = s.failure_count + 1 := by
  simp [CBState.record_failure, hcl, hth]

/-- Iterating record_failure n times from a CLOSED state reaches OPEN as
soon as the count can reach the threshold (and OPEN is absorbing). -/
theorem open_after_failures (cfg : CircuitBreakerConfig) (t : ℚ) :
    ∀ (n : ℕ) (s : CBState),
      s.state = .OPEN ∨
        (s.state = .CLOSED ∧ 1 ≤ n ∧ cfg.failure_threshold ≤ s.failure_count + n) →
      ((CBState.record_failure cfg t)^[n] s).state = .OPEN := by
  intro n
  induction n with
  | zero =>
    intro s h
    rcases h with h | ⟨_, h1, _⟩
    · simpa using h
    · omega
  | succ n ih =>
    intro s h
    rw [Function.iterate_succ_apply]
    rcases h with hopen | ⟨hcl, _, hth⟩
    · exact ih _ (Or.inl (record_failure_open_state cfg t s hopen))
    · by_cases hr : cfg.failure_threshold ≤ s.failure_count + 1
      · exact ih _ (Or.inl (record_failure_closed_opens cfg t s hcl hr))
      · obtain ⟨h1, h2⟩ := record_failure_closed_stays cfg t s hcl hr
        exact ih _ (Or.inr ⟨h1, by omega, by rw [h2]; omega⟩)

/-- A function that raises a retryable exception on every attempt drives
with_retry's loop to exhaustion: the function runs once per allowed
attempt and the last exception is turned into the terminal error. -/
theorem withRetryGo_exhausts {α : Type} (elapsed : ℕ → ℚ) (fn : ℕ → Except PyExc α)
    (h : ∀ i, ∃ e, fn i = .error e ∧ e.isRetryableExc = true) :
    ∀ (k attempt : ℕ), ∃ e, fn (attempt + k) = .error e ∧
      withRetryGo none elapsed fn attempt (k + 1) = (.error (terminalExc e), attempt + k + 1) := by
  intro k
  induction k with
  | zero =>
    intro attempt
    obtain ⟨e, he, hr⟩ := h attempt
    refine ⟨e, by simpa using he, ?_⟩
    simp [withRetryGo, he, hr]
  | succ k ih =>
    intro attempt
    obtain ⟨e0, he0, hr0⟩ := h attempt
    obtain ⟨e, he, hrun⟩ := ih (attempt + 1)
    refine ⟨e, ?_, ?_⟩
    · rw [show attempt + (k + 1) = attempt + 1 + k by omega]
      exact he
    · rw [show attempt + (k + 1) + 1 = attempt + 1 + k + 1 by omega]
      simp only [withRetryGo, he0, hr0]
      simpa using hrun

/-- C4 (counterexample): the error message "job timeout" contains both
"timeout" and "job" but classify_error returns PROCESSING_TIMEOUT, not the
job-timeout kind TEXTRACT_TIMEOUT (there is no top-level "job" keyword
check: only messages containing "textract" reach the Textract branch). -/
theorem c4_counterexample :
    pyIn "timeout" (pyLower "job timeout") = true ∧
    pyIn "job" (pyLower "job timeout") = true ∧
    classify_error "job timeout" = .PROCESSING_TIMEOUT ∧
    classify_error "job timeout" ≠ .TEXTRACT_TIMEOUT := by decide

/-- C4 (amended): a message whose lowercased text contains "timeout" and
"textract" and neither "invalid" nor "expired" is classified
TEXTRACT_TIMEOUT; and any message containing "timeout" is never classified
UNKNOWN_ERROR. -/
theorem c4_timeout_classification (msg : String) :
    (pyIn "textract" (pyLower msg) = true → pyIn "timeout" (pyLower msg) = true →
      pyIn "invalid" (pyLower msg) = false → pyIn "expired" (pyLower msg) = false →
      classify_error msg = .TEXTRACT_TIMEOUT) ∧
    (pyIn "timeout" (pyLower msg) = true → classify_error msg ≠ .UNKNOWN_ERROR) := by
  constructor
  · intro h1 h2 h3 h4
    have hne : ¬ msg = "" := by
      intro he; subst he; exact absurd h1 (by decide)
    simp [classify_error, hne, h1, h2, h3, h4]
  · intro h
    have hne : ¬ msg = "" := by
      intro he; subst he; exact absurd h (by decide)
    simp only [classify_error, if_neg hne]
    split_ifs <;> simp_all

/-- C4 (witness): the amended theorem applied to "textract job timeout". -/
theorem c4_witness :
    (pyIn "textract" (pyLower "textract job timeout") = true ∧
     pyIn "timeout" (pyLower "textract job timeout") = true ∧
     pyIn "invalid" (pyLower "textract job timeout") = false ∧
     pyIn "expired" (pyLower "textract job timeout") = false) ∧
    classify_error "textract job timeout" = .TEXTRACT_TIMEOUT ∧
    classify_error "textract job timeout" ≠ .UNKNOWN_ERROR :=
  ⟨⟨by decide, by decide, by decide, by decide⟩,
   (c4_timeout_classification "textract job timeout").1 (by decide) (by decide)
     (by decide) (by decide),
   (c4_timeout_classification "textract job timeout").2 (by decide)⟩

/-- C6: from a CLOSED state, recording failure_threshold consecutive
failures (threshold at least 1) leaves the breaker OPEN, and every call
made while less than recovery_timeout has elapsed since the last recorded
failure returns CircuitBreakerOpenError without invoking the wrapped
function and without changing the breaker state. -/
theorem c6_open_and_fail_fast (cfg : CircuitBreakerConfig) (t : ℚ) (s : CBState)
    (hth : 1 ≤ cfg.failure_threshold) (hcl : s.state = .CLOSED) :
    ((CBState.record_failure cfg t)^[cfg.failure_threshold] s).state = .OPEN ∧
    ∀ (t2 : ℚ) (ok : Bool),
      t2 - ((CBState.record_failure cfg t)^[cfg.failure_threshold] s).last_failure_time
          < cfg.recovery_timeout →
      CBState.call cfg t2 ((CBState.record_failure cfg t)^[cfg.failure_threshold] s) ok
        = (.circuitOpenError, (CBState.record_failure cfg t)^[cfg.failure_threshold] s, false) := by
  have hopen := open_after_failures cfg t cfg.failure_threshold s (Or.inr ⟨hcl, hth, by omega⟩)
  refine ⟨hopen, ?_⟩
  intro t2 ok hlt
  have hs1 : ((CBState.record_failure cfg t)^[cfg.failure_threshold] s).check_open_transition cfg t2
      = (CBState.record_failure cfg t)^[cfg.failure_threshold] s := by
    unfold CBState.check_open_transition
    rw [if_neg]
    intro hc
    exact absurd hc.2 (lt_asymm hlt)
  simp [CBState.call, hs1, hopen]

/-- C6 (witness): threshold 2, two failures at time 10, then a call at
time 30 with the default 60 second recovery timeout is rejected. -/
theorem c6_witness :
    (1 ≤ c6WitnessCfg.failure_threshold ∧ c6WitnessState.state = .CLOSED ∧
      (30 : ℚ) - ((CBState.record_failure c6WitnessCfg 10)^[c6WitnessCfg.failure_threshold]
          c6WitnessState).last_failure_time < c6WitnessCfg.recovery_timeout) ∧
    CBState.call c6WitnessCfg 30
        ((CBState.record_failure c6WitnessCfg 10)^[c6WitnessCfg.failure_threshold] c6WitnessState)
        true
      = (.circuitOpenError,
         (CBState.record_failure c6WitnessCfg 10)^[c6WitnessCfg.failure_threshold] c6WitnessState,
         false) :=
  ⟨⟨by decide, by decide, by decide⟩,
   (c6_open_and_fail_fast c6WitnessCfg 10 c6WitnessState (by decide) (by decide)).2
     30 true (by decide)⟩

/-- C7 (counterexample): with the default 60 second recovery timeout and a
last failure at time 0, a call at time 60 has elapsed time equal to the
timeout, yet the breaker stays OPEN, rejects the call and does not invoke
the wrapped function: the code requires elapsed strictly greater than
recovery_timeout, not greater-or-equal as the claim states. -/
theorem c7_counterexample :
    openBreakerState.state = .OPEN ∧
    c7Cfg.recovery_timeout ≤ (60 : ℚ) - openBreakerState.last_failure_time ∧
    CBState.call c7Cfg 60 openBreakerState true
      = (.circuitOpenError, openBreakerState, false) := by decide

/-- C7 (amended): when the breaker is OPEN and strictly more than
recovery_timeout has elapsed since the last failure, the lazy check on the
next call transitions the breaker to HALF_OPEN and the wrapped function is
actually invoked. -/
theorem c7_recovery_transition (cfg : CircuitBreakerConfig) (t : ℚ) (s : CBState) (ok : Bool)
    (h1 : s.state = .OPEN) (h2 : cfg.recovery_timeout < t - s.last_failure_time) :
    (s.check_open_transition cfg t).state = .HALF_OPEN ∧
    (CBState.call cfg t s ok).2.2 = true := by
  have htrans : s.check_open_transition cfg t
      = { s with state := .HALF_OPEN, success_count := 0 } := by
    simp [CBState.check_open_transition, h1, h2]
  constructor
  · rw [htrans]
  · simp only [CBState.call, htrans]
    cases ok <;> simp

/-- C7 (witness): the amended theorem at time 61 with a 60 second
recovery timeout and a last failure at time 0. -/
theorem c7_witness :
    (openBreakerState.state = .OPEN ∧
      c7Cfg.recovery_timeout < (61 : ℚ) - openBreakerState.last_failure_time) ∧
    (openBreakerState.check_open_transition c7Cfg 61).state = .HALF_OPEN ∧
    (CBState.call c7Cfg 61 openBreakerState true).2.2 = true :=
  ⟨⟨by decide, by decide⟩,
   c7_recovery_transition c7Cfg 61 openBreakerState true (by decide) (by decide)⟩

/-- C5 (counterexample): a function that always raises ClientError (which
is in the default retryable_exceptions tuple) is retried until
max_retries + 1 = 2 invocations, but the error then re-raised is the bare
ClientError, not a service-unavailable (503) terminal wrapper: with_retry
only wraps RetryableError instances after exhaustion. -/
theorem c5_counterexample :
    alwaysClientErr = (fun _ => .error (.clientErr "boom")) ∧
    PyExc.isRetryableExc (.clientErr "boom") = true ∧
    with_retry 1 none (fun _ => 0) alwaysClientErr = (.error (.clientErr "boom"), 2) ∧
    PyExc.isServiceUnavailable (.clientErr "boom") = false := by
  refine ⟨rfl, rfl, by decide, rfl⟩

/-- C5 (amended): a function that raises an exception from the default
retryable tuple on every invocation is invoked exactly max_retries + 1
times; the error then raised is terminalExc of the last failure, i.e. an
APIError with HTTP-equivalent status 503 wrapping it when the failure is a
RetryableError, and the bare last exception otherwise. -/
theorem c5_retry_exhaustion {α : Type} (max_retries : ℕ) (elapsed : ℕ → ℚ)
    (fn : ℕ → Except PyExc α)
    (h : ∀ i, ∃ e, fn i = .error e ∧ e.isRetryableExc = true) :
    ∃ e, fn max_retries = .error e ∧
      with_retry max_retries none elapsed fn = (.error (terminalExc e), max_retries + 1) := by
  obtain ⟨e, he, hrun⟩ := withRetryGo_exhausts elapsed fn h max_retries 0
  exact ⟨e, by simpa using he, by simpa [with_retry] using hrun⟩

/-- C5 (witness): an always-failing RetryableError with max_retries = 2 is
invoked 3 times and raises the 503 wrapper around the last failure. -/
theorem c5_witness :
    with_retry 2 none (fun _ => 0) alwaysRetryableErr
      = (.error (.apiServiceUnavailable (.retryableErr "svc down")), 3) := by
  obtain ⟨e, he, hrun⟩ := c5_retry_exhaustion 2 (fun _ => 0) alwaysRetryableErr
    (fun _ => ⟨.retryableErr "svc down", rfl, rfl⟩)
  have he2 : PyExc.retryableErr "svc down" = e := Except.error.inj he
  rw [← he2] at hrun
  simpa [terminalExc, PyExc.isRetryableErrorInstance] using hrun

/-- scoreDescB is transitive. -/
theorem scoreDescB_trans : ∀ a b c : MatchRow, scoreDescB a b → scoreDescB b c → scoreDescB a c := by
  intro a b c hab hbc
  simp only [scoreDescB, decide_eq_true_eq] at *
  exact le_trans hbc hab

/-- scoreDescB is total. -/
theorem scoreDescB_total : ∀ a b : MatchRow, scoreDescB a b || scoreDescB b a := by
  intro a b
  simp only [scoreDescB, Bool.or_eq_true, decide_eq_true_eq]
  exact le_total _ _

/-- C2 (counterexample): with a single job whose status is "closed" (not
active) but whose score for c1 is 80, generate_matches_for_candidate still
returns it, while the claim's active-only matchAllJobs returns nothing:
the code scans and scores every job regardless of status. -/
theorem c2_counterexample :
    c2ClosedDb.jobs.filter (fun j => j.status = "active") = [] ∧
    specMatchAllJobsActive c2ClosedDb "c1" = [] ∧
    generate_matches_for_candidate c2ClosedDb "c1"
      = [{ candidateId := "c1", jobId := "j1", matchScore := 80 }] := by
  refine ⟨by decide, ?_, ?_⟩
  · unfold specMatchAllJobsActive
    rw [show c2ClosedDb.jobs.filter (fun j => j.status = "active") = [] by decide]
    simp
  · unfold generate_matches_for_candidate
    rw [show positiveMatches c2ClosedDb "c1"
        = [{ candidateId := "c1", jobId := "j1", matchScore := 80 }] by decide]
    simp

/-- C2 (amended): generate_matches_for_candidate keeps exactly the
(candidate, job) pairs whose score is strictly positive over ALL jobs in
the jobs table (regardless of status), sorted in descending score order,
with ties kept in the original enumeration order (any two rows that follow
each other in the score-filtered enumeration and satisfy the descending
comparison keep their relative order in the output). -/
theorem c2_all_jobs_sorted (db : MatchDb) (candidate_id : String) :
    (generate_matches_for_candidate db candidate_id).Perm (positiveMatches db candidate_id) ∧
    List.Pairwise (fun a b : MatchRow => b.matchScore ≤ a.matchScore)
      (generate_matches_for_candidate db candidate_id) ∧
    ∀ a b : MatchRow, [a, b].Sublist (positiveMatches db candidate_id) →
      b.matchScore ≤ a.matchScore →
      [a, b].Sublist (generate_matches_for_candidate db candidate_id) := by
  refine ⟨List.mergeSort_perm _ _, ?_, ?_⟩
  · unfold generate_matches_for_candidate
    exact (List.sorted_mergeSort scoreDescB_trans scoreDescB_total
      (positiveMatches db candidate_id)).imp
      (fun h => by simpa [scoreDescB] using h)
  · intro a b hsub hle
    unfold generate_matches_for_candidate
    exact List.pair_sublist_mergeSort scoreDescB_trans scoreDescB_total
      (by simp [scoreDescB, hle]) hsub

/-- C2 (witness): two jobs with equal positive scores for c1 keep their
jobs-table order in the generated matches. -/
theorem c2_witness :
    ([{ candidateId := "c1", jobId := "j1", matchScore := (80 : ℚ) },
      { candidateId := "c1", jobId := "j2", matchScore := (80 : ℚ) }].Sublist
        (positiveMatches c2WitnessDb "c1") ∧
     ((80 : ℚ) ≤ 80)) ∧
    [{ candidateId := "c1", jobId := "j1", matchScore := (80 : ℚ) },
     { candidateId := "c1", jobId := "j2", matchScore := (80 : ℚ) }].Sublist
      (generate_matches_for_candidate c2WitnessDb "c1") :=
  ⟨⟨by decide, by decide⟩,
   (c2_all_jobs_sorted c2WitnessDb "c1").2.2 _ _ (by decide) (by decide)⟩

/-- C3: for every candidate with a stored analysis record and every
existing job, calculate_match_score equals the claim's formula
round(skillScore * 0.6 + experienceScore * 0.4, 2), where skillScore is
100 * matchedSkillCount / len(job skills) under bidirectional
case-insensitive substring matching (0 when the job lists no skills) and
experienceScore is the stored overall score defaulting to 50. -/
theorem c3_score_formula (db : MatchDb) (candidate_id job_id : String)
    (a : MAnalysis) (j : MJob)
    (ha : (db.analyses.filter (fun x => x.candidateId = candidate_id)).head? = some a)
    (hj : db.jobs.find? (fun x => x.jobId = job_id) = some j) :
    calculate_match_score db candidate_id job_id =
      pyRound2 (specSkillScore (candidateSkillsOf a) j.skills * (6/10)
        + experienceScoreOf a * (4/10)) := by
  simp only [calculate_match_score, ha, hj]
  by_cases hempty : j.skills = []
  · simp [specSkillScore, hempty]
  · have hlen : 0 < j.skills.length := List.length_pos.mpr hempty
    simp only [specSkillScore, if_neg hempty, if_pos hlen]
    congr 1
    ring

/-- C3 (witness): the formula theorem at scenario 4's database (candidate
skills python/react, job skills Python/Docker). -/
theorem c3_witness :
    ((c3WitnessDb.analyses.filter (fun x => x.candidateId = "c1")).head?
        = some c3WitnessAnalysis ∧
     c3WitnessDb.jobs.find? (fun x => x.jobId = "j1") = some c3WitnessJob) ∧
    calculate_match_score c3WitnessDb "c1" "j1" =
      pyRound2 (specSkillScore (candidateSkillsOf c3WitnessAnalysis) c3WitnessJob.skills * (6/10)
        + experienceScoreOf c3WitnessAnalysis * (4/10)) :=
  ⟨⟨by decide, by decide⟩,
   c3_score_formula c3WitnessDb "c1" "j1" c3WitnessAnalysis c3WitnessJob
     (by decide) (by decide)⟩

/-- roundHalfEven maps nonnegative rationals to nonnegative integers. -/
theorem roundHalfEven_nonneg {q : ℚ} (h : 0 ≤ q) : 0 ≤ roundHalfEven q := by
  have hf : (0 : ℤ) ≤ ⌊q⌋ := Int.floor_nonneg.mpr h
  simp only [roundHalfEven]
  split_ifs <;> omega

/-- pyRound2 maps nonnegative rationals to nonnegative rationals. -/
theorem pyRound2_nonneg {q : ℚ} (h : 0 ≤ q) : 0 ≤ pyRound2 q := by
  unfold pyRound2
  have h1 : (0 : ℤ) ≤ roundHalfEven (q * 100) := roundHalfEven_nonneg (by positivity)
  have h2 : (0 : ℚ) ≤ (roundHalfEven (q * 100) : ℚ) := by exact_mod_cast h1
  positivity

/-- C10 (counterexample): with a stored negative overall score (-100, a
value the structuring stage never writes but nothing validates) and a job
without required skills, calculate_match_score returns -40, a negative
score: the claim that it never returns a negative score is false on the
raw function. -/
theorem c10_counterexample :
    calculate_match_score c10NegDb "c1" "j1" = -40 ∧
    calculate_match_score c10NegDb "c1" "j1" < 0 := by decide

/-- C10 (amended): calculate_match_score is total and returns 0 when the
candidate has no analysis record and when the job does not exist (the
source wraps the body in try/except returning 0, so no input raises); the
score is nonnegative whenever the stored experience score is nonnegative
(as every score the pipeline itself stores is). -/
theorem c10_score_fallbacks (db : MatchDb) (candidate_id job_id : String) :
    ((db.analyses.filter (fun x => x.candidateId = candidate_id)).head? = none →
      calculate_match_score db candidate_id job_id = 0) ∧
    (db.jobs.find? (fun x => x.jobId = job_id) = none →
      calculate_match_score db candidate_id job_id = 0) ∧
    (∀ a, (db.analyses.filter (fun x => x.candidateId = candidate_id)).head? = some a →
      0 ≤ experienceScoreOf a → 0 ≤ calculate_match_score db candidate_id job_id) := by
  refine ⟨?_, ?_, ?_⟩
  · intro h
    simp [calculate_match_score, h]
  · intro h
    cases hh : (db.analyses.filter (fun x => x.candidateId = candidate_id)).head? with
    | none => simp [calculate_match_score, hh]
    | some a => simp [calculate_match_score, hh, h]
  · intro a ha hexp
    cases hj : db.jobs.find? (fun x => x.jobId = job_id) with
    | none => simp [calculate_match_score, ha, hj]
    | some j =>
      simp only [calculate_match_score, ha, hj]
      apply pyRound2_nonneg
      apply add_nonneg
      · by_cases hlen : 0 < j.skills.length
        · rw [if_pos hlen]
          have : (0 : ℚ) ≤ (((j.skills.filter (fun skill =>
              (candidateSkillsOf a).any (fun cs =>
                pyIn (pyLower cs) (pyLower skill) || pyIn (pyLower skill) (pyLower cs)))).length : ℚ))
              / (j.skills.length : ℚ) * 100 := by positivity
          exact mul_nonneg this (by norm_num)
        · rw [if_neg hlen]
          simp
      · exact mul_nonneg hexp (by norm_num)

/-- C10 (witness): the three parts at concrete databases: empty database,
missing job, and a stored score of 70. -/
theorem c10_witness :
    calculate_match_score { analyses := [], jobs := [] } "c1" "j1" = 0 ∧
    calculate_match_score c10WitnessDb "c1" "nope" = 0 ∧
    0 ≤ calculate_match_score c10WitnessDb "c1" "j1" :=
  ⟨(c10_score_fallbacks { analyses := [], jobs := [] } "c1" "j1").1 (by decide),
   (c10_score_fallbacks c10WitnessDb "c1" "nope").2.1 (by decide),
   (c10_score_fallbacks c10WitnessDb "c1" "j1").2.2
     { candidateId := "c1", overallScore := some 70 } (by decide) (by decide)⟩

/-- The totalYears > 0 guard in calculate_overall_score is redundant: the
tiers themselves yield 0 below one year. -/
theorem experienceTiers_guard (y : ℚ) :
    (if 0 < y then (if 5 ≤ y then 30 else if 3 ≤ y then 20 else if 1 ≤ y then 10 else 0)
     else (0 : ℕ))
      = (if 5 ≤ y then 30 else if 3 ≤ y then 20 else if 1 ≤ y then 10 else 0) := by
  by_cases h : 0 < y
  · rw [if_pos h]
  · rw [if_neg h]
    have h1 : ¬ (1 : ℚ) ≤ y := fun hc => h (lt_of_lt_of_le one_pos hc)
    have h3 : ¬ (3 : ℚ) ≤ y := fun hc => h (lt_of_lt_of_le (by norm_num) hc)
    have h5 : ¬ (5 : ℚ) ≤ y := fun hc => h (lt_of_lt_of_le (by norm_num) hc)
    rw [if_neg h5, if_neg h3, if_neg h1]

/-- calculate_overall_score equals the specification's component formula. -/
theorem calculate_overall_score_spec (sk : List String) (e : Experience) (ed : Education) :
    calculate_overall_score sk e ed =
      min 100 (specSkillPoints sk + specExperiencePoints e
        + specEducationPoints ed + specRolePoints e) := by
  simp only [calculate_overall_score, specSkillPoints, specExperiencePoints,
    specEducationPoints, specRolePoints]
  rw [Nat.mul_comm sk.length 2, experienceTiers_guard]
  exact Nat.min_comm _ _

set_option maxRecDepth 200000 in
/-- C8: on the structuring stage's pattern-matching path the overall score
is min(100, S + E + D + R) with S = min(2 * number of extracted skills,
40), E the experience-year tier, D the degree/university points and R the
current-role points, all computed from the same text; in particular the
scenario-1 text yields exactly 46 (S = 6 for Java/Python/AWS, E = 30 for 5
years, D = 0, R = 10 for Senior Software Engineer). -/
theorem c8_overall_score :
    (∀ text, (extract_from_text text).overallScore =
      min 100 (specSkillPoints (extract_skills text)
        + specExperiencePoints (extract_experience text)
        + specEducationPoints (extract_education text)
        + specRolePoints (extract_experience text))) ∧
    (extract_from_text sampleResumeText).overallScore = 46 := by
  constructor
  · intro text
    simp only [extract_from_text]
    exact calculate_overall_score_spec _ _ _
  · decide

/-- C1 (code bug): the spec requires completion notifications to be
idempotent (look up by job reference before creating), but
process_textract_results creates a fresh analysis record (new uuid4 key)
on every SUCCEEDED delivery with no lookup: after a pdf upload (which
already wrote one placeholder record) and two deliveries of the same
SUCCEEDED notification the candidate has three analysis records, and the
second delivery alone grew the count from two to three. -/
theorem c1_duplicate_analysis_records :
    ((runPipe (.pdf "cand-1" "resume.pdf" true "job-1")
      [.textractResult "job-1" "SUCCEEDED" "extracted text"]).analyses.filter
        (fun a => a.candidateId = "cand-1")).length = 2 ∧
    ((runPipe (.pdf "cand-1" "resume.pdf" true "job-1")
      [.textractResult "job-1" "SUCCEEDED" "extracted text",
       .textractResult "job-1" "SUCCEEDED" "extracted text"]).analyses.filter
        (fun a => a.candidateId = "cand-1")).length = 3 := by decide

/-- Any status that is analyzed or failed may follow any status in the
forward-only order (failed has no rank; analyzed has the top rank). -/
theorem rankLeB_terminal (a x : String) (hx : x = "analyzed" ∨ x = "failed") :
    rankLeB a x = true := by
  rcases hx with h | h <;> subst h
  · unfold rankLeB
    rw [show statusRank "analyzed" = some 2 from rfl]
    cases hsa : statusRank a with
    | none => rfl
    | some ra =>
      have hra : ra ≤ 2 := by
        unfold statusRank at hsa
        split_ifs at hsa <;> simp_all <;> omega
      simpa using decide_eq_true hra
  · unfold rankLeB
    rw [show statusRank "failed" = none from rfl]
    cases statusRank a <;> rfl

/-- A list of analyzed/failed writes is forward-only chained. -/
theorem chain'_terminal (l : List String)
    (hl : ∀ x ∈ l, x = "analyzed" ∨ x = "failed") :
    List.Chain' (fun a b => rankLeB a b = true) l := by
  induction l with
  | nil => simp
  | cons a t ih =>
    cases t with
    | nil => simp
    | cons b t2 =>
      rw [List.chain'_cons]
      refine ⟨rankLeB_terminal a b (hl b (by simp)), ih ?_⟩
      intro x hx
      exact hl x (by simp at hx ⊢; tauto)

/-- Every pipeline event appends only analyzed or failed status writes. -/
theorem step_history (s : PipeState) (e : PipeEvent) :
    ∃ l, (pipeStep s e).statusHistory = s.statusHistory ++ l ∧
      ∀ x ∈ l, x = "analyzed" ∨ x = "failed" := by
  cases e with
  | textractResult j st txt =>
    simp only [pipeStep, textractNotification]
    by_cases h1 : st = "SUCCEEDED"
    · rw [if_pos h1]
      by_cases h2 : s.textractJobId = some j
      · rw [if_pos h2]
        exact ⟨["analyzed"], by simp [PipeState.writeStatus, PipeState.putAnalysis], by simp⟩
      · rw [if_neg h2]
        exact ⟨[], by simp, by simp⟩
    · rw [if_neg h1]
      by_cases h2 : s.textractJobId = some j
      · rw [if_pos h2]
        exact ⟨["failed"], by simp [PipeState.writeStatus], by simp⟩
      · rw [if_neg h2]
        exact ⟨[], by simp, by simp⟩
  | nlp ok =>
    simp only [pipeStep, nlpRun]
    cases ok with
    | false =>
      exact ⟨["failed"], by simp [PipeState.writeStatus], by simp⟩
    | true =>
      cases hh : s.analyses.head? with
      | none =>
        exact ⟨[], by simp [hh], by simp⟩
      | some a =>
        by_cases he : a.extractedText = ""
        · exact ⟨[], by simp [hh, he], by simp⟩
        · exact ⟨["analyzed"], by simp [hh, he, PipeState.writeStatus], by simp⟩

/-- Event steps preserve goodness of the status-write log. -/
theorem goodHist_step (s : PipeState) (e : PipeEvent)
    (hs : GoodHist s.statusHistory) : GoodHist (pipeStep s e).statusHistory := by
  obtain ⟨l, hl, hterm⟩ := step_history s e
  rw [hl]
  constructor
  · intro x hx
    rcases List.mem_append.mp hx with hx | hx
    · exact hs.1 x hx
    · rcases hterm x hx with h | h <;> subst h <;> decide
  · rw [List.chain'_append]
    refine ⟨hs.2, chain'_terminal l hterm, ?_⟩
    intro x _ y hy
    exact rankLeB_terminal x y (hterm y (List.mem_of_mem_head? hy))

/-- C9 (counterexample): after a pdf upload whose Textract job starts
successfully, the candidate's status is the literal "processing", which is
not one of the claim's six values {uploaded, extracting, extracted,
structuring, analyzed, failed}; the code never writes extracting,
extracted or structuring. -/
theorem c9_counterexample :
    (uploadInit (.pdf "cand-1" "resume.pdf" true "job-1")).statusHistory
      = ["uploaded", "processing"] ∧
    "processing" ∈ (uploadInit (.pdf "cand-1" "resume.pdf" true "job-1")).statusHistory ∧
    "processing" ∉ specStatusValues := by decide

/-- C9 (amended): every value the modelled pipeline writes to a
candidate's status is in {uploaded, processing, analyzed, failed}, and
along any lifecycle (an upload followed by any sequence of completion
notifications and NLP invocations) consecutive writes never move backward
along the chain uploaded, processing, analyzed (failed carries no rank and
may be entered from any state; a duplicate SUCCEEDED delivery may later
overwrite it with analyzed). -/
theorem c9_status_vocabulary_and_order (u : UploadInput) (events : List PipeEvent) :
    (∀ x ∈ (runPipe u events).statusHistory, x ∈ pipeStatusValues) ∧
    List.Chain' (fun a b => rankLeB a b = true) (runPipe u events).statusHistory := by
  have hstep : ∀ (es : List PipeEvent) (s : PipeState), GoodHist s.statusHistory →
      GoodHist ((es.foldl pipeStep s).statusHistory) := by
    intro es
    induction es with
    | nil => intro s hs; simpa using hs
    | cons e es ih =>
      intro s hs
      simp only [List.foldl_cons]
      exact ih _ (goodHist_step s e hs)
  have hinit : GoodHist (uploadInit u).statusHistory := by
    cases u with
    | txt cid text =>
      rw [show (uploadInit (.txt cid text)).statusHistory = ["uploaded", "analyzed"] from rfl]
      exact ⟨by decide, by rw [List.chain'_pair]; decide⟩
    | pdf cid fn ok j =>
      cases ok with
      | true =>
        rw [show (uploadInit (.pdf cid fn true j)).statusHistory
            = ["uploaded", "processing"] from rfl]
        exact ⟨by decide, by rw [List.chain'_pair]; decide⟩
      | false =>
        rw [show (uploadInit (.pdf cid fn false j)).statusHistory
            = ["uploaded", "failed"] from rfl]
        exact ⟨by decide, by rw [List.chain'_pair]; decide⟩
  exact hstep events (uploadInit u) hinit

/-- C9 (witness): the amended theorem at a concrete pdf lifecycle with a
duplicate completion delivery and one NLP run. -/
theorem c9_witness :
    "processing" ∈ pipeStatusValues ∧
    List.Chain' (fun a b => rankLeB a b = true)
      (runPipe (.pdf "c9" "r.pdf" true "j9")
        [.textractResult "j9" "SUCCEEDED" "txt", .nlp true,
         .textractResult "j9" "SUCCEEDED" "txt"]).statusHistory :=
  ⟨(c9_status_vocabulary_and_order (.pdf "c9" "r.pdf" true "j9")
      [.textractResult "j9" "SUCCEEDED" "txt", .nlp true,
       .textractResult "j9" "SUCCEEDED" "txt"]).1 "processing" (by decide),
   (c9_status_vocabulary_and_order (.pdf "c9" "r.pdf" true "j9")
      [.textractResult "j9" "SUCCEEDED" "txt", .nlp true,
       .textractResult "j9" "SUCCEEDED" "txt"]).2⟩
